import Mathlib

/-!
Verification of the team roster, subscription, agent-streaming and
interactive-loop logic of the langchain-agent-example repository, as a
shallow embedding in Lean.  Python strings are modelled as Lean strings,
optional arguments as `Option String`, and the dynamically computed
timestamp fields of the fixtures as abstract parameters.
-/

namespace KapaAgent

set_option maxRecDepth 10000

/-- ASCII lower-casing, modelling Python `str.lower()` on the ASCII data used
by this repository. -/
def pyLower (s : String) : String := ⟨s.data.map Char.toLower⟩

/-- Contiguous-sublist test on character lists, by structural recursion. -/
def charInfixOf (needle : List Char) : List Char → Bool
  | [] => needle.isEmpty
  | c :: t => needle.isPrefixOf (c :: t) || charInfixOf needle t

/-- Python substring membership `needle in hay` on strings. -/
def pyContains (hay needle : String) : Bool := charInfixOf needle.data hay.data

/-- A team member record, after `TeamMember` in `src/tools/team.py`. -/
structure TeamMember where
  id : String
  name : String
  email : String
  role : String
  department : String
  joined_date : String
  last_active : String
  status : String
deriving DecidableEq, Repr

/-- The fixed team fixture `MOCK_TEAM_MEMBERS` of `src/tools/team.py`.  The
`last_active` fields of the first seven members are computed from the wall
clock at process start, so they are taken as an abstract parameter `la`;
the eighth member has the literal sentinel value. -/
def MOCK_TEAM_MEMBERS (la : Nat → String) : List TeamMember :=
  [⟨"usr_001", "Sarah Chen", "sarah.chen@acme.com", "admin", "Engineering",
    "2023-01-15", la 0, "active"⟩,
   ⟨"usr_002", "Marcus Johnson", "marcus.j@acme.com", "admin", "Product",
    "2023-02-20", la 1, "active"⟩,
   ⟨"usr_003", "Emily Rodriguez", "emily.r@acme.com", "member", "Engineering",
    "2023-04-10", la 2, "active"⟩,
   ⟨"usr_004", "James Wilson", "james.w@acme.com", "member", "Design",
    "2023-06-05", la 3, "active"⟩,
   ⟨"usr_005", "Priya Patel", "priya.p@acme.com", "member", "Engineering",
    "2023-08-22", la 4, "active"⟩,
   ⟨"usr_006", "Alex Kim", "alex.k@acme.com", "viewer", "Marketing",
    "2023-10-01", la 5, "active"⟩,
   ⟨"usr_007", "Jordan Lee", "jordan.l@acme.com", "member", "Sales",
    "2024-01-08", la 6, "active"⟩,
   ⟨"usr_008", "Taylor Swift", "taylor.s@acme.com", "viewer", "Finance",
    "2024-03-15", "N/A", "invited"⟩]

/-- The role-filter pass of `get_team_members`.  Python evaluates
`if role_filter:` by truthiness, so both `None` and the empty string skip
the pass. -/
def applyRoleFilter (role_filter : Option String) (members : List TeamMember) :
    List TeamMember :=
  match role_filter with
  | some r => if r = "" then members
              else members.filter (fun m => pyLower m.role == pyLower r)
  | none => members

/-- The department-filter pass of `get_team_members` (case-insensitive
substring match, skipped when the argument is falsy). -/
def applyDeptFilter (department_filter : Option String)
    (members : List TeamMember) : List TeamMember :=
  match department_filter with
  | some d => if d = "" then members
              else members.filter (fun m => pyContains (pyLower m.department) (pyLower d))
  | none => members

/-- The inactive-exclusion pass of `get_team_members`: when
`include_inactive` is false, members with status `deactivated` are
removed. -/
def applyInactiveFilter (include_inactive : Bool) (members : List TeamMember) :
    List TeamMember :=
  if include_inactive then members
  else members.filter (fun m => !(m.status == "deactivated"))

/-- The surviving record list after the three sequential passes of
`get_team_members`, in source order: role, then department, then the
inactive exclusion. -/
def survivingMembers (role_filter department_filter : Option String)
    (include_inactive : Bool) (la : Nat → String) : List TeamMember :=
  applyInactiveFilter include_inactive
    (applyDeptFilter department_filter
      (applyRoleFilter role_filter (MOCK_TEAM_MEMBERS la)))

/-- The status glyph of one member line. -/
def statusIcon (m : TeamMember) : String :=
  if m.status == "active" then "✓"
  else if m.status == "invited" then "⏳"
  else "✗"

/-- The per-member line `format_member` of `get_team_members`. -/
def format_member (m : TeamMember) : String :=
  "  - **" ++ m.name ++ "** (" ++ m.email ++ ") " ++ statusIcon m ++
    "\n    " ++ m.department ++ " · Last active: " ++ m.last_active

/-- One role section of the output: empty when the group is empty,
otherwise a heading followed by the newline-joined member lines and a
blank line. -/
def roleSection (heading : String) (group : List TeamMember) : String :=
  if group.isEmpty then ""
  else "### " ++ heading ++ "\n" ++
    String.intercalate "\n" (group.map format_member) ++ "\n\n"

/-- The number of surviving members with status `invited`. -/
def invitedCount (members : List TeamMember) : Nat :=
  (members.filter (fun m => m.status == "invited")).length

/-- The pending-invitations footer appended when the invited count is
non-zero. -/
def pendingFooter (c : Nat) : String :=
  "\n*" ++ toString c ++ " pending invitation(s)*"

/-- The fixed empty-result message of `get_team_members`. -/
def noResultsMessage : String :=
  "No team members found matching the specified criteria."

/-- The `admins` group of `get_team_members`: survivors whose role field is
exactly `admin`. -/
def adminsGroup (members : List TeamMember) : List TeamMember :=
  members.filter (fun m => m.role == "admin")

/-- The `regular_members` group of `get_team_members`. -/
def membersGroup (members : List TeamMember) : List TeamMember :=
  members.filter (fun m => m.role == "member")

/-- The `viewers` group of `get_team_members`. -/
def viewersGroup (members : List TeamMember) : List TeamMember :=
  members.filter (fun m => m.role == "viewer")

/-- The `result` string of `get_team_members` before the optional footer:
the header followed by the three conditional role sections. -/
def teamBody (members : List TeamMember) : String :=
  "## Team Members (" ++ toString members.length ++ " total)\n\n"
    ++ roleSection "Admins" (adminsGroup members)
    ++ roleSection "Members" (membersGroup members)
    ++ roleSection "Viewers" (viewersGroup members)

/-- The full output of `get_team_members` in `src/tools/team.py`; the
local `members` variable of the source is `survivingMembers`. -/
def get_team_members (role_filter department_filter : Option String)
    (include_inactive : Bool) (la : Nat → String) : String :=
  if (survivingMembers role_filter department_filter include_inactive la).isEmpty then
    noResultsMessage
  else if invitedCount (survivingMembers role_filter department_filter include_inactive la) ≠ 0 then
    teamBody (survivingMembers role_filter department_filter include_inactive la) ++
      pendingFooter (invitedCount (survivingMembers role_filter department_filter include_inactive la))
  else teamBody (survivingMembers role_filter department_filter include_inactive la)

/-- The role predicate actually applied by the code: trivially true when
the filter is absent or empty (Python falsiness), otherwise a
case-insensitive exact match. -/
def rolePred : Option String → TeamMember → Bool
  | none, _ => true
  | some r, m => if r = "" then true else pyLower m.role == pyLower r

/-- The department predicate actually applied by the code. -/
def deptPred : Option String → TeamMember → Bool
  | none, _ => true
  | some d, m => if d = "" then true else pyContains (pyLower m.department) (pyLower d)

/-- The status predicate actually applied by the code. -/
def inactivePred (include_inactive : Bool) (m : TeamMember) : Bool :=
  if include_inactive then true else !(m.status == "deactivated")

/-- The conjunction of the three predicates applied by the code. -/
def teamPred (role_filter department_filter : Option String)
    (include_inactive : Bool) (m : TeamMember) : Bool :=
  rolePred role_filter m && deptPred department_filter m &&
    inactivePred include_inactive m

/-- The role predicate as the claim words it: a given (`some`) role filter
always performs the case-insensitive exact match, even when it is the
empty string. -/
def specRolePred : Option String → TeamMember → Bool
  | none, _ => true
  | some r, m => pyLower m.role == pyLower r

/-- The department predicate as the claim words it: a given (`some`)
department filter always performs the case-insensitive substring match. -/
def specDeptPred : Option String → TeamMember → Bool
  | none, _ => true
  | some d, m => pyContains (pyLower m.department) (pyLower d)

/-- The surviving set as the claim words it. -/
def specSurviving (role_filter department_filter : Option String)
    (include_inactive : Bool) (la : Nat → String) : List TeamMember :=
  (MOCK_TEAM_MEMBERS la).filter (fun m =>
    specRolePred role_filter m && specDeptPred department_filter m &&
      inactivePred include_inactive m)

/-- A concrete instantiation of the timestamp parameter, for witnesses. -/
def la0 : Nat → String := fun _ => "2024-01-01 00:00"

lemma rolePred_trivial (ρ : Option String) (h : ρ = none ∨ ρ = some "") :
    rolePred ρ = fun _ => true := by
  rcases h with h | h <;> subst h <;> rfl

lemma deptPred_trivial (δ : Option String) (h : δ = none ∨ δ = some "") :
    deptPred δ = fun _ => true := by
  rcases h with h | h <;> subst h <;> rfl

lemma applyRoleFilter_eq_filter (ρ : Option String) (ms : List TeamMember) :
    applyRoleFilter ρ ms = ms.filter (rolePred ρ) := by
  cases ρ with
  | none => simp [applyRoleFilter, rolePred_trivial none (Or.inl rfl), List.filter_true]
  | some r =>
    by_cases h : r = ""
    · subst h
      simp [applyRoleFilter, rolePred_trivial (some "") (Or.inr rfl), List.filter_true]
    · have hp : rolePred (some r) = fun m => pyLower m.role == pyLower r := by
        funext m; simp [rolePred, h]
      simp [applyRoleFilter, h, hp]

lemma applyDeptFilter_eq_filter (δ : Option String) (ms : List TeamMember) :
    applyDeptFilter δ ms = ms.filter (deptPred δ) := by
  cases δ with
  | none => simp [applyDeptFilter, deptPred_trivial none (Or.inl rfl), List.filter_true]
  | some d =>
    by_cases h : d = ""
    · subst h
      simp [applyDeptFilter, deptPred_trivial (some "") (Or.inr rfl), List.filter_true]
    · have hp : deptPred (some d) = fun m => pyContains (pyLower m.department) (pyLower d) := by
        funext m; simp [deptPred, h]
      simp [applyDeptFilter, h, hp]

lemma applyInactiveFilter_eq_filter (ι : Bool) (ms : List TeamMember) :
    applyInactiveFilter ι ms = ms.filter (inactivePred ι) := by
  cases ι with
  | true =>
    have hp : inactivePred true = fun _ => true := rfl
    simp [applyInactiveFilter, hp, List.filter_true]
  | false =>
    have hp : inactivePred false = fun m => !(m.status == "deactivated") := rfl
    simp [applyInactiveFilter, hp]

lemma survivingMembers_eq_filter (ρ δ : Option String) (ι : Bool)
    (la : Nat → String) :
    survivingMembers ρ δ ι la = (MOCK_TEAM_MEMBERS la).filter (teamPred ρ δ ι) := by
  simp only [survivingMembers, applyRoleFilter_eq_filter,
    applyDeptFilter_eq_filter, applyInactiveFilter_eq_filter,
    List.filter_filter]
  exact List.filter_congr (fun m _ => by
    simp only [teamPred]
    cases rolePred ρ m <;> cases deptPred δ m <;> cases inactivePred ι m <;> rfl)

/-- Claim C1 as stated is refuted by the empty-string role filter: Python
truthiness makes the code skip the role pass entirely, while the claimed
predicate (exact match against the empty string) eliminates every record,
so the claimed empty-set message is not returned. -/
theorem C1_counterexample :
    specSurviving (some "") none false la0 = [] ∧
    survivingMembers (some "") none false la0 ≠ [] ∧
    get_team_members (some "") none false la0 ≠ noResultsMessage := by
  refine ⟨by decide, by decide, ?_⟩
  decide

/-- Claim C1, amended: for every filter combination the surviving set is
exactly the subset of the fixture satisfying the three predicates, where a
role or department filter only applies when it is given and non-empty
(Python truthiness); and whenever that subset is empty the function
returns exactly the fixed no-results message. -/
theorem C1_theorem (ρ δ : Option String) (ι : Bool) (la : Nat → String) :
    survivingMembers ρ δ ι la = (MOCK_TEAM_MEMBERS la).filter (teamPred ρ δ ι) ∧
    ((MOCK_TEAM_MEMBERS la).filter (teamPred ρ δ ι) = [] →
      get_team_members ρ δ ι la = noResultsMessage) := by
  refine ⟨survivingMembers_eq_filter ρ δ ι la, fun he => ?_⟩
  have hm : survivingMembers ρ δ ι la = [] :=
    (survivingMembers_eq_filter ρ δ ι la).trans he
  simp [get_team_members, hm]

/-- Witness for `C1_theorem`: an unmatchable role filter empties the set
and yields the fixed message. -/
theorem C1_witness :
    get_team_members (some "zzz") none false la0 = noResultsMessage :=
  (C1_theorem (some "zzz") none false la0).2 (by decide)

/-- Claim C9: the three filter passes commute — applying them in any of
the six possible orders yields the same surviving list. -/
theorem C9_theorem (ρ δ : Option String) (ι : Bool) (la : Nat → String) :
    survivingMembers ρ δ ι la =
      applyInactiveFilter ι (applyRoleFilter ρ (applyDeptFilter δ (MOCK_TEAM_MEMBERS la))) ∧
    survivingMembers ρ δ ι la =
      applyDeptFilter δ (applyInactiveFilter ι (applyRoleFilter ρ (MOCK_TEAM_MEMBERS la))) ∧
    survivingMembers ρ δ ι la =
      applyDeptFilter δ (applyRoleFilter ρ (applyInactiveFilter ι (MOCK_TEAM_MEMBERS la))) ∧
    survivingMembers ρ δ ι la =
      applyRoleFilter ρ (applyInactiveFilter ι (applyDeptFilter δ (MOCK_TEAM_MEMBERS la))) ∧
    survivingMembers ρ δ ι la =
      applyRoleFilter ρ (applyDeptFilter δ (applyInactiveFilter ι (MOCK_TEAM_MEMBERS la))) := by
  simp only [survivingMembers, applyRoleFilter_eq_filter,
    applyDeptFilter_eq_filter, applyInactiveFilter_eq_filter,
    List.filter_filter]
  refine ⟨?_, ?_, ?_, ?_, ?_⟩ <;>
    exact List.filter_congr (fun m _ => by
      cases rolePred ρ m <;> cases deptPred δ m <;> cases inactivePred ι m <;> rfl)

lemma mem_fixture_role {la : Nat → String} {m : TeamMember}
    (hm : m ∈ MOCK_TEAM_MEMBERS la) :
    m.role = "admin" ∨ m.role = "member" ∨ m.role = "viewer" := by
  simp only [MOCK_TEAM_MEMBERS, List.mem_cons, List.not_mem_nil, or_false] at hm
  rcases hm with rfl | rfl | rfl | rfl | rfl | rfl | rfl | rfl <;> simp

lemma survivingMembers_sublist (ρ δ : Option String) (ι : Bool)
    (la : Nat → String) :
    List.Sublist (survivingMembers ρ δ ι la) (MOCK_TEAM_MEMBERS la) := by
  rw [survivingMembers_eq_filter]
  exact List.filter_sublist _

/-- Claim C2: for every filter combination with a non-empty surviving set,
every surviving team member appears in exactly one of the three sections,
the section matching its role field, and each section is a sublist of the
original fixture list (hence preserves its relative order). -/
theorem C2_theorem (ρ δ : Option String) (ι : Bool) (la : Nat → String)
    (_hne : survivingMembers ρ δ ι la ≠ []) :
    (∀ m ∈ survivingMembers ρ δ ι la,
      (m.role = "admin" ∧ m ∈ adminsGroup (survivingMembers ρ δ ι la) ∧
        m ∉ membersGroup (survivingMembers ρ δ ι la) ∧
        m ∉ viewersGroup (survivingMembers ρ δ ι la)) ∨
      (m.role = "member" ∧ m ∉ adminsGroup (survivingMembers ρ δ ι la) ∧
        m ∈ membersGroup (survivingMembers ρ δ ι la) ∧
        m ∉ viewersGroup (survivingMembers ρ δ ι la)) ∨
      (m.role = "viewer" ∧ m ∉ adminsGroup (survivingMembers ρ δ ι la) ∧
        m ∉ membersGroup (survivingMembers ρ δ ι la) ∧
        m ∈ viewersGroup (survivingMembers ρ δ ι la))) ∧
    List.Sublist (adminsGroup (survivingMembers ρ δ ι la)) (MOCK_TEAM_MEMBERS la) ∧
    List.Sublist (membersGroup (survivingMembers ρ δ ι la)) (MOCK_TEAM_MEMBERS la) ∧
    List.Sublist (viewersGroup (survivingMembers ρ δ ι la)) (MOCK_TEAM_MEMBERS la) := by
  have hsub := survivingMembers_sublist ρ δ ι la
  refine ⟨?_, (List.filter_sublist _).trans hsub,
    (List.filter_sublist _).trans hsub, (List.filter_sublist _).trans hsub⟩
  intro m hm
  have hA : m ∈ adminsGroup (survivingMembers ρ δ ι la) ↔ m.role = "admin" := by
    simp [adminsGroup, List.mem_filter, hm]
  have hM : m ∈ membersGroup (survivingMembers ρ δ ι la) ↔ m.role = "member" := by
    simp [membersGroup, List.mem_filter, hm]
  have hV : m ∈ viewersGroup (survivingMembers ρ δ ι la) ↔ m.role = "viewer" := by
    simp [viewersGroup, List.mem_filter, hm]
  rcases mem_fixture_role (hsub.subset hm) with h | h | h
  · refine Or.inl ⟨h, hA.mpr h, fun hc => ?_, fun hc => ?_⟩
    · rw [hM, h] at hc; exact absurd hc (by decide)
    · rw [hV, h] at hc; exact absurd hc (by decide)
  · refine Or.inr (Or.inl ⟨h, fun hc => ?_, hM.mpr h, fun hc => ?_⟩)
    · rw [hA, h] at hc; exact absurd hc (by decide)
    · rw [hV, h] at hc; exact absurd hc (by decide)
  · refine Or.inr (Or.inr ⟨h, fun hc => ?_, fun hc => ?_, hV.mpr h⟩)
    · rw [hA, h] at hc; exact absurd hc (by decide)
    · rw [hM, h] at hc; exact absurd hc (by decide)

/-- The first fixture record, with the timestamp parameter instantiated. -/
def sarah : TeamMember :=
  ⟨"usr_001", "Sarah Chen", "sarah.chen@acme.com", "admin", "Engineering",
   "2023-01-15", "2024-01-01 00:00", "active"⟩

/-- Witness for `C2_theorem` at the unfiltered roster and its first
surviving member. -/
theorem C2_witness :
    (sarah.role = "admin" ∧ sarah ∈ adminsGroup (survivingMembers none none false la0) ∧
      sarah ∉ membersGroup (survivingMembers none none false la0) ∧
      sarah ∉ viewersGroup (survivingMembers none none false la0)) ∨
    (sarah.role = "member" ∧ sarah ∉ adminsGroup (survivingMembers none none false la0) ∧
      sarah ∈ membersGroup (survivingMembers none none false la0) ∧
      sarah ∉ viewersGroup (survivingMembers none none false la0)) ∨
    (sarah.role = "viewer" ∧ sarah ∉ adminsGroup (survivingMembers none none false la0) ∧
      sarah ∉ membersGroup (survivingMembers none none false la0) ∧
      sarah ∈ viewersGroup (survivingMembers none none false la0)) :=
  (C2_theorem none none false la0 (by decide)).1 sarah (by decide)

/-- Boolean suffix test on strings, the formalisation of "ends with". -/
def strEndsWith (s t : String) : Bool := decide (t.data <:+ s.data)

lemma lastChar_append {a b : String} {c : Char}
    (hb : b.data.getLast? = some c) : (a ++ b).data.getLast? = some c := by
  rw [String.data_append, List.getLast?_append, hb, Option.or_some]

lemma lastChar_append_right {a b : String} {c : Char}
    (ha : a.data.getLast? = some c) (hb : b = "" ∨ b.data.getLast? = some c) :
    (a ++ b).data.getLast? = some c := by
  rcases hb with hb | hb
  · subst hb; rwa [String.append_empty]
  · exact lastChar_append hb

lemma roleSection_lastChar (h : String) (g : List TeamMember) :
    roleSection h g = "" ∨ (roleSection h g).data.getLast? = some '\n' := by
  unfold roleSection
  split
  · exact Or.inl rfl
  · right
    apply lastChar_append
    decide

lemma teamBody_lastChar (members : List TeamMember) :
    (teamBody members).data.getLast? = some '\n' := by
  unfold teamBody
  refine lastChar_append_right ?_ (roleSection_lastChar _ _)
  refine lastChar_append_right ?_ (roleSection_lastChar _ _)
  refine lastChar_append_right ?_ (roleSection_lastChar _ _)
  apply lastChar_append
  decide

lemma pendingFooter_lastChar (k : Nat) :
    (pendingFooter k).data.getLast? = some '*' := by
  unfold pendingFooter
  apply lastChar_append
  decide

lemma noResultsMessage_lastChar : noResultsMessage.data.getLast? = some '.' := by
  decide

lemma not_suffix_of_lastChar_ne {s t : List Char} {c d : Char}
    (hs : s.getLast? = some c) (ht : t.getLast? = some d) (hne : d ≠ c) :
    ¬ t <:+ s := by
  rintro ⟨u, rfl⟩
  rw [List.getLast?_append, ht, Option.or_some] at hs
  exact hne (Option.some.inj hs)

lemma strEndsWith_append (a b : String) : strEndsWith (a ++ b) b = true := by
  simp only [strEndsWith, decide_eq_true_eq]
  exact ⟨a.data, (String.data_append a b).symm⟩

/-- Claim C3: the output of `get_team_members` ends with the
pending-invitations footer showing the exact invited count if and only if
at least one surviving record has status `invited`. -/
theorem C3_theorem (ρ δ : Option String) (ι : Bool) (la : Nat → String) :
    (0 < invitedCount (survivingMembers ρ δ ι la) →
      strEndsWith (get_team_members ρ δ ι la)
        (pendingFooter (invitedCount (survivingMembers ρ δ ι la))) = true) ∧
    (invitedCount (survivingMembers ρ δ ι la) = 0 →
      ∀ k : Nat,
        strEndsWith (get_team_members ρ δ ι la) (pendingFooter k) = false) := by
  constructor
  · intro hc
    have hne : (survivingMembers ρ δ ι la).isEmpty = false := by
      cases h : survivingMembers ρ δ ι la with
      | nil => rw [h] at hc; simp [invitedCount] at hc
      | cons a t => rfl
    have hc0 : invitedCount (survivingMembers ρ δ ι la) ≠ 0 := Nat.pos_iff_ne_zero.mp hc
    unfold get_team_members
    rw [hne]
    simp only [Bool.false_eq_true, if_false, if_pos hc0]
    exact strEndsWith_append _ _
  · intro hc0 k
    unfold get_team_members
    by_cases h : (survivingMembers ρ δ ι la).isEmpty
    · rw [if_pos h]
      apply decide_eq_false
      exact not_suffix_of_lastChar_ne noResultsMessage_lastChar
        (pendingFooter_lastChar k) (by decide)
    · rw [if_neg h, if_neg (by simp [hc0])]
      apply decide_eq_false
      exact not_suffix_of_lastChar_ne (teamBody_lastChar _)
        (pendingFooter_lastChar k) (by decide)

/-- Witness for `C3_theorem`: the unfiltered roster has exactly one
invited member and its output carries the footer for count 1; an
admins-only query has no invited member and no footer for any count. -/
theorem C3_witness :
    strEndsWith (get_team_members none none false la0) (pendingFooter 1) = true ∧
    strEndsWith (get_team_members (some "admin") none false la0)
      (pendingFooter 7) = false := by
  constructor
  · have h := (C3_theorem none none false la0).1 (by decide)
    rwa [show invitedCount (survivingMembers none none false la0) = 1 by decide] at h
  · exact (C3_theorem (some "admin") none false la0).2 (by decide) 7

/-- Subscription record, after `SubscriptionInfo` in
`src/tools/subscription.py`.  The Python `monthly_price` float `49.99` is
an exact two-decimal value, modelled as a count of cents. -/
structure SubscriptionInfo where
  plan_name : String
  status : String
  seats_used : Nat
  seats_total : Nat
  billing_cycle : String
  current_period_end : String
  monthly_price_cents : Nat
  features : List String
deriving DecidableEq, Repr

/-- The fixture `MOCK_SUBSCRIPTION`; its `current_period_end` is computed
from the wall clock at process start and is taken as a parameter. -/
def MOCK_SUBSCRIPTION (periodEnd : String) : SubscriptionInfo :=
  ⟨"Pro", "active", 8, 10, "annual", periodEnd, 4999,
   ["Unlimited projects", "Advanced analytics", "Priority support",
    "Custom integrations", "API access", "SSO authentication"]⟩

/-- Python `str.capitalize()`: first character upper-cased, the rest
lower-cased. -/
def pyCapitalize (s : String) : String :=
  match s.data with
  | [] => ""
  | c :: cs => String.mk (Char.toUpper c :: cs.map Char.toLower)

/-- Rendering of an exact cent amount with two decimal places, the
rendering Python produces for the fixture price via `str` and `:.2f`. -/
def formatCents (c : Nat) : String :=
  toString (c / 100) ++ "." ++ (if c % 100 < 10 then "0" else "") ++ toString (c % 100)

/-- The output segment before the available-seats number. -/
def seatsHeaderSeg (sub : SubscriptionInfo) : String :=
  "## Subscription Information\n\n**Plan:** " ++ sub.plan_name ++
    "\n**Status:** " ++ pyCapitalize sub.status ++
    "\n\n### Usage\n- **Seats:** " ++ toString sub.seats_used ++ " / " ++
    toString sub.seats_total ++ " used\n- **Available seats:** "

/-- The output segment between the available-seats number and the annual
price. -/
def billingPreSeg (sub : SubscriptionInfo) : String :=
  "\n\n### Billing\n- **Cycle:** " ++ pyCapitalize sub.billing_cycle ++
    "\n- **Price:** $" ++ formatCents sub.monthly_price_cents ++ "/month ($"

/-- The output segment between the annual price and the period-end date. -/
def billingPostSeg : String := "/year)\n- **Current period ends:** "

/-- The feature-list segment closing the output. -/
def featuresSeg (sub : SubscriptionInfo) : String :=
  "\n\n### Included Features\n" ++
    String.intercalate "\n" (sub.features.map (fun f => "- " ++ f)) ++ "\n"

/-- The f-string of `get_subscription_info`, as a function of the record. -/
def formatSubscription (sub : SubscriptionInfo) : String :=
  seatsHeaderSeg sub ++ toString (sub.seats_total - sub.seats_used) ++
    billingPreSeg sub ++ formatCents (sub.monthly_price_cents * 12) ++
    billingPostSeg ++ sub.current_period_end ++ featuresSeg sub

set_option linter.unusedVariables false in
/-- `get_subscription_info` of `src/tools/subscription.py`: the optional
`user_id` is accepted and ignored; the output is the formatted fixture. -/
def get_subscription_info (user_id : Option String) (periodEnd : String) : String :=
  formatSubscription (MOCK_SUBSCRIPTION periodEnd)

set_option maxRecDepth 10000 in
/-- Claim C4: for every optional user_id, the output reports available
seats equal to `seats_total - seats_used` and an annual price equal to the
monthly price times 12 with two decimals; at the shipped fixture the
output is the literal block showing 2 available seats and $599.88/year. -/
theorem C4_theorem (user_id : Option String) (periodEnd : String)
    (sub : SubscriptionInfo) :
    (∃ a b : String, formatSubscription sub =
      a ++ toString (sub.seats_total - sub.seats_used) ++ b) ∧
    (∃ a b : String, formatSubscription sub =
      a ++ formatCents (sub.monthly_price_cents * 12) ++ b) ∧
    (MOCK_SUBSCRIPTION periodEnd).seats_total -
      (MOCK_SUBSCRIPTION periodEnd).seats_used = 2 ∧
    formatCents ((MOCK_SUBSCRIPTION periodEnd).monthly_price_cents * 12) = "599.88" ∧
    get_subscription_info user_id periodEnd =
      "## Subscription Information\n\n**Plan:** Pro\n**Status:** Active\n\n### Usage\n- **Seats:** 8 / 10 used\n- **Available seats:** 2\n\n### Billing\n- **Cycle:** Annual\n- **Price:** $49.99/month ($599.88/year)\n- **Current period ends:** "
        ++ periodEnd ++
      "\n\n### Included Features\n- Unlimited projects\n- Advanced analytics\n- Priority support\n- Custom integrations\n- API access\n- SSO authentication\n" := by
  have hplan : (MOCK_SUBSCRIPTION periodEnd).plan_name = "Pro" := rfl
  have hstatus : (MOCK_SUBSCRIPTION periodEnd).status = "active" := rfl
  have hsu : (MOCK_SUBSCRIPTION periodEnd).seats_used = 8 := rfl
  have hst : (MOCK_SUBSCRIPTION periodEnd).seats_total = 10 := rfl
  have hbc : (MOCK_SUBSCRIPTION periodEnd).billing_cycle = "annual" := rfl
  have hmp : (MOCK_SUBSCRIPTION periodEnd).monthly_price_cents = 4999 := rfl
  have hcpe : (MOCK_SUBSCRIPTION periodEnd).current_period_end = periodEnd := rfl
  have hfeat : (MOCK_SUBSCRIPTION periodEnd).features =
      ["Unlimited projects", "Advanced analytics", "Priority support",
       "Custom integrations", "API access", "SSO authentication"] := rfl
  refine ⟨⟨seatsHeaderSeg sub,
      billingPreSeg sub ++ formatCents (sub.monthly_price_cents * 12) ++
        billingPostSeg ++ sub.current_period_end ++ featuresSeg sub,
      by simp [formatSubscription, String.append_assoc]⟩,
    ⟨seatsHeaderSeg sub ++ toString (sub.seats_total - sub.seats_used) ++
        billingPreSeg sub,
      billingPostSeg ++ sub.current_period_end ++ featuresSeg sub,
      by simp [formatSubscription, String.append_assoc]⟩,
    by rw [hst, hsu], by rw [hmp]; decide, ?_⟩
  have hseg1 : seatsHeaderSeg (MOCK_SUBSCRIPTION periodEnd) ++
      toString ((MOCK_SUBSCRIPTION periodEnd).seats_total -
        (MOCK_SUBSCRIPTION periodEnd).seats_used) ++
      billingPreSeg (MOCK_SUBSCRIPTION periodEnd) ++
      formatCents ((MOCK_SUBSCRIPTION periodEnd).monthly_price_cents * 12) ++
      billingPostSeg =
      "## Subscription Information\n\n**Plan:** Pro\n**Status:** Active\n\n### Usage\n- **Seats:** 8 / 10 used\n- **Available seats:** 2\n\n### Billing\n- **Cycle:** Annual\n- **Price:** $49.99/month ($599.88/year)\n- **Current period ends:** " := by
    simp only [seatsHeaderSeg, billingPreSeg, billingPostSeg,
      hplan, hstatus, hsu, hst, hbc, hmp]
    decide
  have hseg2 : featuresSeg (MOCK_SUBSCRIPTION periodEnd) =
      "\n\n### Included Features\n- Unlimited projects\n- Advanced analytics\n- Priority support\n- Custom integrations\n- API access\n- SSO authentication\n" := by
    simp only [featuresSeg, hfeat]
    decide
  have h : get_subscription_info user_id periodEnd =
      (seatsHeaderSeg (MOCK_SUBSCRIPTION periodEnd) ++
        toString ((MOCK_SUBSCRIPTION periodEnd).seats_total -
          (MOCK_SUBSCRIPTION periodEnd).seats_used) ++
        billingPreSeg (MOCK_SUBSCRIPTION periodEnd) ++
        formatCents ((MOCK_SUBSCRIPTION periodEnd).monthly_price_cents * 12) ++
        billingPostSeg) ++ (MOCK_SUBSCRIPTION periodEnd).current_period_end ++
        featuresSeg (MOCK_SUBSCRIPTION periodEnd) := by
    simp [get_subscription_info, formatSubscription, String.append_assoc]
  rw [h, hseg1, hseg2, hcpe]

/-- ANSI escape prefix for italics (`Style.ITALIC` in `src/agent.py`). -/
def Style.ITALIC : String := "\x1b[3m"

/-- ANSI escape prefix for dim text (`Style.DIM`). -/
def Style.DIM : String := "\x1b[2m"

/-- ANSI reset code (`Style.RESET`). -/
def Style.RESET : String := "\x1b[0m"

/-- One entry of a streamed chunk's `content_blocks`. -/
inductive ContentBlock where
  | reasoning (rtext : String)
  | text (t : String)
  | otherBlock
deriving DecidableEq, Repr

/-- A streamed chat-model chunk: its `content_blocks` list (empty when the
attribute is missing or empty) and its fallback `content` string. -/
structure StreamChunk where
  content_blocks : List ContentBlock
  content : String
deriving DecidableEq, Repr

/-- The events of `agent.astream_events` that `run_agent` reacts to; tool
input is modelled as the key/value items of the input dict, values in
string form. -/
inductive AgentEvent where
  | chatModelStream (chunk : StreamChunk)
  | toolStart (name : String) (input : List (String × String))
  | toolEnd
  | otherEvent
deriving DecidableEq, Repr

/-- The truncated display of one tool-argument value
(`src/agent.py`, line 210): strictly more than 100 characters shows the
first 100 followed by an ellipsis, otherwise the value is unchanged. -/
def displayValue (value : String) : String :=
  if value.length > 100 then String.mk (value.data.take 100) ++ "..." else value

/-- One printed argument line of a tool-invocation notice. -/
def toolArgLine (key value : String) : String :=
  "   " ++ key ++ ": " ++ displayValue value ++ "\n"

/-- The full printed tool-invocation notice of `run_agent`. -/
def toolStartNotice (name : String) (input : List (String × String)) : String :=
  "\n🔧 Calling tool: " ++ name ++ "\n" ++
    (if input.isEmpty then ""
     else String.join (input.map (fun kv => toolArgLine kv.1 kv.2))) ++ "\n"

/-- The streaming state of `run_agent`: the accumulated final response,
the `in_reasoning` flag, and everything printed so far. -/
structure AgentState where
  final_response : String
  in_reasoning : Bool
  out : String
deriving DecidableEq, Repr

/-- Processing of one content block inside an `on_chat_model_stream`
event. -/
def processBlock (verbose : Bool) (st : AgentState) (b : ContentBlock) : AgentState :=
  match b with
  | .reasoning rtext =>
    if verbose then
      let s := if !st.in_reasoning then
          { st with out := st.out ++ "\n🧠 " ++ Style.DIM ++ Style.ITALIC,
                    in_reasoning := true }
        else st
      if rtext ≠ "" then { s with out := s.out ++ rtext } else s
    else st
  | .text t =>
    if t ≠ "" then
      let s := if st.in_reasoning then
          { st with out := st.out ++ Style.RESET ++ "\n\n\n", in_reasoning := false }
        else st
      { s with out := s.out ++ t, final_response := s.final_response ++ t }
    else st
  | .otherBlock => st

/-- Processing of one streamed event by `run_agent`. -/
def processEvent (verbose : Bool) (st : AgentState) (e : AgentEvent) : AgentState :=
  match e with
  | .chatModelStream chunk =>
    if !chunk.content_blocks.isEmpty then
      chunk.content_blocks.foldl (processBlock verbose) st
    else if chunk.content ≠ "" then
      let s := if st.in_reasoning then
          { st with out := st.out ++ Style.RESET ++ "\n\n\n", in_reasoning := false }
        else st
      { s with out := s.out ++ chunk.content,
               final_response := s.final_response ++ chunk.content }
    else st
  | .toolStart name input =>
    if verbose then
      let s := if st.in_reasoning then
          { st with out := st.out ++ Style.RESET ++ "\n\n", in_reasoning := false }
        else st
      { s with out := s.out ++ toolStartNotice name input }
    else st
  | .toolEnd =>
    if verbose then { st with out := st.out ++ "✓ Tool completed\n\n" } else st
  | .otherEvent => st

/-- The event-loop fold of `run_agent`, from the empty initial state. -/
def runAgentLoop (verbose : Bool) (events : List AgentEvent) : AgentState :=
  events.foldl (processEvent verbose) ⟨"", false, ""⟩

/-- The final trailing-newline decision of `run_agent`
(`if final_response and not final_response.endswith("\n")`). -/
def trailingNewlineEmitted (verbose : Bool) (events : List AgentEvent) : Bool :=
  ((runAgentLoop verbose events).final_response != "") &&
    !(strEndsWith (runAgentLoop verbose events).final_response "\n")

/-- `run_agent` of `src/agent.py`: the full printed output and the
returned accumulated response. -/
def run_agent (verbose : Bool) (events : List AgentEvent) : String × String :=
  ((runAgentLoop verbose events).out ++
     (if trailingNewlineEmitted verbose events then "\n" else ""),
   (runAgentLoop verbose events).final_response)

/-- Claim C5: a tool-argument value longer than 100 characters is
displayed as exactly its first 100 characters followed by an ellipsis; a
value of at most 100 characters is displayed unchanged. -/
theorem C5_theorem (value : String) :
    (100 < value.length →
      displayValue value = String.mk (value.data.take 100) ++ "...") ∧
    (value.length ≤ 100 → displayValue value = value) := by
  constructor
  · intro h
    simp [displayValue, h]
  · intro h
    simp [displayValue, Nat.not_lt.mpr h]

/-- A concrete 150-character argument value. -/
def longArg : String := String.mk (List.replicate 150 'a')

/-- A concrete short argument value. -/
def shortArg : String := "Engineering"

/-- Witness for `C5_theorem` on a 150-character value and on a short
value. -/
theorem C5_witness :
    displayValue longArg = String.mk (longArg.data.take 100) ++ "..." ∧
    displayValue shortArg = shortArg :=
  ⟨(C5_theorem longArg).1 (by decide), (C5_theorem shortArg).2 (by decide)⟩

/-- Claim C6 as stated is refuted by the empty event stream: the
accumulated response is empty and does not end with a newline, yet no
trailing newline is emitted, because the code also requires the response
to be non-empty (Python truthiness of `final_response`). -/
theorem C6_counterexample :
    strEndsWith (runAgentLoop true []).final_response "\n" = false ∧
    trailingNewlineEmitted true [] = false := by
  constructor
  · decide
  · decide

/-- Claim C6, amended: after the final token, a trailing newline is
emitted exactly when the accumulated response is non-empty and does not
already end with a newline. -/
theorem C6_theorem (verbose : Bool) (events : List AgentEvent) :
    ((runAgentLoop verbose events).final_response ≠ "" →
      strEndsWith (runAgentLoop verbose events).final_response "\n" = false →
      (run_agent verbose events).1 = (runAgentLoop verbose events).out ++ "\n") ∧
    (strEndsWith (runAgentLoop verbose events).final_response "\n" = true →
      (run_agent verbose events).1 = (runAgentLoop verbose events).out) ∧
    ((runAgentLoop verbose events).final_response = "" →
      (run_agent verbose events).1 = (runAgentLoop verbose events).out) := by
  refine ⟨fun h1 h2 => ?_, fun h => ?_, fun h => ?_⟩
  · simp [run_agent, trailingNewlineEmitted, h1, h2]
  · simp [run_agent, trailingNewlineEmitted, h]
  · simp [run_agent, trailingNewlineEmitted, h]

/-- A one-chunk event stream producing the answer text `hi`. -/
def sampleEvents : List AgentEvent := [.chatModelStream ⟨[.text "hi"], ""⟩]

/-- Witness for `C6_theorem` on a stream whose response is `hi`. -/
theorem C6_witness :
    (run_agent true sampleEvents).1 = (runAgentLoop true sampleEvents).out ++ "\n" :=
  (C6_theorem true sampleEvents).1 (by decide) (by decide)

/-- The whitespace characters stripped by Python `str.strip()` (ASCII). -/
def pySpace (c : Char) : Bool :=
  c == ' ' || c == '\t' || c == '\n' || c == '\r' ||
    c == Char.ofNat 11 || c == Char.ofNat 12

/-- Python `str.strip()`: whitespace removed from both ends. -/
def pyStrip (s : String) : String :=
  String.mk (((s.data.dropWhile pySpace).reverse.dropWhile pySpace).reverse)

/-- The quit test of the chat loop of `main.py`:
`user_input.lower() in ("quit", "exit", "q")`. -/
def isQuitCommand (s : String) : Bool :=
  pyLower s == "quit" || pyLower s == "exit" || pyLower s == "q"

/-- Why the chat loop of `main.py` stopped. -/
inductive ExitReason where
  | quitCommand
  | endOfInput
deriving DecidableEq, Repr

/-- The chat loop of `main.py` over a finite stream of input lines
(stream end models EOF or interrupt): it returns the messages dispatched
to the agent, in order, and the exit reason. -/
def chatLoop : List String → List String × ExitReason
  | [] => ([], .endOfInput)
  | line :: rest =>
    if pyStrip line == "" then chatLoop rest
    else if isQuitCommand (pyStrip line) then ([], .quitCommand)
    else (pyStrip line :: (chatLoop rest).1, (chatLoop rest).2)

/-- Claim C7: an input line whose stripped, lower-cased form is `quit`,
`exit` or `q` terminates the loop at once, dispatching neither that line
nor anything after it. -/
theorem C7_theorem (line : String) (rest : List String)
    (h : isQuitCommand (pyStrip line) = true) :
    chatLoop (line :: rest) = ([], ExitReason.quitCommand) := by
  have hne : (pyStrip line == "") = false := by
    cases he : pyStrip line == ""
    · rfl
    · exfalso
      have hs : pyStrip line = "" := by simpa using he
      rw [hs] at h
      exact absurd h (by decide)
  simp [chatLoop, hne, h]

/-- Witness for `C7_theorem`: a mixed-case quit command with surrounding
whitespace. -/
theorem C7_witness :
    chatLoop ["  QuIt ", "who is on my team?"] = ([], ExitReason.quitCommand) :=
  C7_theorem "  QuIt " ["who is on my team?"] (by decide)

/-- Claim C10: a line that is empty or all whitespace is skipped — it is
not dispatched and does not terminate the loop, which continues with the
remaining input. -/
theorem C10_theorem (line : String) (rest : List String)
    (h : ∀ c ∈ line.data, pySpace c = true) :
    chatLoop (line :: rest) = chatLoop rest := by
  have h0 : line.data.dropWhile pySpace = [] :=
    List.dropWhile_eq_nil_iff.mpr h
  have hs : pyStrip line = "" := by
    unfold pyStrip
    rw [h0]
    rfl
  simp [chatLoop, hs]

/-- Witness for `C10_theorem` on a three-space line. -/
theorem C10_witness : chatLoop ["   ", "hello"] = chatLoop ["hello"] :=
  C10_theorem "   " ["hello"] (by decide)

/-- Python truthiness of an optional string: `None` and the empty string
are falsy. -/
def pyTruthy : Option String → Bool
  | none => false
  | some s => s != ""

/-- The startup environment read by `create_in_product_agent`. -/
structure Env where
  kapa_mcp_server_url : Option String
  kapa_api_key : Option String
deriving DecidableEq, Repr

/-- The `ValueError` message raised for a missing MCP server URL (the two
adjacent Python string literals concatenate). -/
def urlErrorMsg : String :=
  "KAPA_MCP_SERVER_URL must be set either as argument or environment variable. This should be your Kapa MCP server URL (e.g., https://your-project.mcp.kapa.ai)"

/-- The `ValueError` message raised for a missing API key. -/
def keyErrorMsg : String :=
  "KAPA_API_KEY must be set either as argument or environment variable. This is your Kapa API key for the MCP server."

/-- The configuration validation of `create_in_product_agent` when called
with no arguments, as in `main.py`: a raised `ValueError` is modelled as
an `Except.error`. -/
def configCheck (env : Env) : Except String Unit :=
  if !pyTruthy env.kapa_mcp_server_url then .error urlErrorMsg
  else if !pyTruthy env.kapa_api_key then .error keyErrorMsg
  else .ok ()

/-- The environment-variable listing printed by `main.py` after a caught
configuration `ValueError`. -/
def envVarLines : String :=
  "Please make sure you have set the following environment variables:\n  - OPENAI_API_KEY\n  - KAPA_MCP_SERVER_URL\n  - KAPA_API_KEY\n"

/-- The full diagnostic printed by the `except ValueError` handler. -/
def configDiagnostic (env : Env) : String :=
  match configCheck env with
  | .error e => "Error: " ++ e ++ "\n\n" ++ envVarLines
  | .ok _ => ""

/-- The startup outcome of `main`: on a configuration error the handler
prints its diagnostic and `return`s (process ends with success); otherwise
the chat loop is entered. -/
inductive StartupOutcome where
  | gracefulReturn (diagnostic : String)
  | proceed
deriving DecidableEq, Repr

/-- The startup decision of `main` in `main.py`. -/
def mainStartup (env : Env) : StartupOutcome :=
  match configCheck env with
  | .error e => .gracefulReturn ("Error: " ++ e ++ "\n\n" ++ envVarLines)
  | .ok _ => .proceed

/-- Claim C8: when the documentation-search endpoint URL or its API key
is missing (unset or empty), startup surfaces a diagnostic naming all
three required environment variables and returns gracefully instead of
propagating the exception. -/
theorem C8_theorem (env : Env)
    (h : pyTruthy env.kapa_mcp_server_url = false ∨
         pyTruthy env.kapa_api_key = false) :
    mainStartup env = StartupOutcome.gracefulReturn (configDiagnostic env) ∧
    pyContains (configDiagnostic env) "OPENAI_API_KEY" = true ∧
    pyContains (configDiagnostic env) "KAPA_MCP_SERVER_URL" = true ∧
    pyContains (configDiagnostic env) "KAPA_API_KEY" = true := by
  by_cases hu : pyTruthy env.kapa_mcp_server_url
  · have hk : pyTruthy env.kapa_api_key = false := by
      rcases h with h | h
      · rw [h] at hu; exact absurd hu (by decide)
      · exact h
    have hc : configCheck env = .error keyErrorMsg := by
      simp [configCheck, hu, hk]
    have hd : configDiagnostic env = "Error: " ++ keyErrorMsg ++ "\n\n" ++ envVarLines := by
      unfold configDiagnostic
      rw [hc]
    have hms : mainStartup env = StartupOutcome.gracefulReturn
        ("Error: " ++ keyErrorMsg ++ "\n\n" ++ envVarLines) := by
      unfold mainStartup
      rw [hc]
    refine ⟨by rw [hms, hd], ?_, ?_, ?_⟩ <;>
      · rw [hd]
        decide
  · have hu0 : pyTruthy env.kapa_mcp_server_url = false := by
      cases hv : pyTruthy env.kapa_mcp_server_url
      · rfl
      · exact absurd hv hu
    have hc : configCheck env = .error urlErrorMsg := by
      simp [configCheck, hu0]
    have hd : configDiagnostic env = "Error: " ++ urlErrorMsg ++ "\n\n" ++ envVarLines := by
      unfold configDiagnostic
      rw [hc]
    have hms : mainStartup env = StartupOutcome.gracefulReturn
        ("Error: " ++ urlErrorMsg ++ "\n\n" ++ envVarLines) := by
      unfold mainStartup
      rw [hc]
    refine ⟨by rw [hms, hd], ?_, ?_, ?_⟩ <;>
      · rw [hd]
        decide

/-- Witness for `C8_theorem` on a fully unset environment. -/
theorem C8_witness :
    mainStartup ⟨none, none⟩ =
      StartupOutcome.gracefulReturn (configDiagnostic ⟨none, none⟩) ∧
    pyContains (configDiagnostic ⟨none, none⟩) "OPENAI_API_KEY" = true ∧
    pyContains (configDiagnostic ⟨none, none⟩) "KAPA_MCP_SERVER_URL" = true ∧
    pyContains (configDiagnostic ⟨none, none⟩) "KAPA_API_KEY" = true :=
  C8_theorem ⟨none, none⟩ (Or.inl (by decide))

end KapaAgent
